import Mathlib

/-!
Verification development for the langgraph-rag-weather-agent repository.

The pipeline in `src/graph.py` routes a question either to a live-weather
path (`src/weather.py`) or to a retrieval path (`src/rag.py`) and then
generates an answer.  The Python functions are embedded shallowly below:

* Python strings are Lean `String`s; `str.lower`, `str.strip`, `str.title`
  and substring containment (`"needle" in s`) are modelled character by
  character on the ASCII range, and `str.upper` additionally carries the
  two best-known non-ASCII special cases (`ß` uppercases to `SS`, `ı`
  to `I`) — the inputs on which case-insensitivity of the city extractor
  genuinely fails; the rest of the Unicode case table and Unicode
  whitespace beyond the six ASCII space characters are not modelled.
* The two `re.search` calls of `extract_city_name` are embedded with their
  exact Python semantics for these patterns: leftmost starting position
  wins, the lazy `+?` group takes the shortest extension that lets the
  remainder of the pattern match, and `$` accepts the end of the string or
  a final newline.
* JSON-ish Python values (the geocoding and One Call responses) are the
  inductive `JVal`; numbers carry a rational, which conflates Python int
  and float except in printing (noted where it matters).
* Exceptions are `Except` values; `weather_node`'s `try/except` and
  `summarise_onecall`'s `try/except` become total functions that pattern
  match on the `Except`.
* The LangGraph wiring of `build_pipeline` is `runPipeline`: each node
  returns the dictionary of state-field writes it produced (in the order
  the Python dict literal lists them) and the run keeps the trace of
  those write sets, which is what the write-once claims are about.
* Outbound effects (the chat model, the vector store's similarity search
  and the two HTTP endpoints) are fields of an `Env` record, and the calls
  a run makes are reified as `Event`s.
-/

set_option maxRecDepth 20000

namespace LGWA

/-- Model of Python whitespace `\s` on the ASCII range: space, tab,
newline, carriage return, vertical tab, form feed. -/
def isSpaceChar (c : Char) : Bool :=
  c == ' ' || c == '\t' || c == '\n' || c == '\r' || c == '\x0b' || c == '\x0c'

/-- ASCII letter, the `a-zA-Z` part of the character classes in
`extract_city_name`. -/
def isAsciiLetter (c : Char) : Bool :=
  ('a' ≤ c && c ≤ 'z') || ('A' ≤ c && c ≤ 'Z')

/-- ASCII case map used by `str.lower` (the condition is the code-point
range of `A`-`Z`). -/
def lowerChar (c : Char) : Char :=
  if 65 ≤ c.toNat ∧ c.toNat ≤ 90 then Char.ofNat (c.toNat + 32) else c

/-- ASCII case map used by `str.upper` (the condition is the code-point
range of `a`-`z`). -/
def upperChar (c : Char) : Char :=
  if 97 ≤ c.toNat ∧ c.toNat ≤ 122 then Char.ofNat (c.toNat - 32) else c

/-- Python `str.lower()` (ASCII case map). -/
def pyLower (s : String) : String := String.mk (s.data.map lowerChar)

/-- Full uppercase mapping of one character under Python `str.upper()`:
the ASCII case map, plus the two well-known non-ASCII special cases —
`ß` (U+00DF) uppercases to the two-character `SS`, and dotless `ı`
(U+0131) to `I`.  Other non-ASCII characters are left unchanged (the
rest of the Unicode case table is outside the model). -/
def pyUpperChar (c : Char) : List Char :=
  if c = 'ß' then ['S', 'S']
  else if c = 'ı' then ['I']
  else [upperChar c]

/-- Python `str.upper()`: concatenation of each character's full
uppercase mapping (so `"straße".upper()` is `"STRASSE"`). -/
def pyUpper (s : String) : String := String.mk (s.data.map pyUpperChar).flatten

/-- Python `str.strip()` on a character list: drop whitespace from both
ends. -/
def stripList (cs : List Char) : List Char :=
  ((cs.dropWhile isSpaceChar).reverse.dropWhile isSpaceChar).reverse

/-- Python `str.strip()`. -/
def pyStrip (s : String) : String := String.mk (stripList s.data)

/-- Is a string empty (Python falsiness of a string)? -/
def strEmpty (s : String) : Bool := s.data.isEmpty

/-- Does `needle` occur at the head of `hay`? -/
def matchesAt : List Char → List Char → Bool
  | [], _ => true
  | _ :: _, [] => false
  | a :: as, b :: bs => a == b && matchesAt as bs

/-- Python substring containment `needle in hay`. -/
def hasSub : List Char → List Char → Bool
  | [], needle => needle.isEmpty
  | h :: t, needle => matchesAt needle (h :: t) || hasSub t needle

/-- Character class `[a-zA-Z\s]` of the capture groups in
`extract_city_name`. -/
def cls1 (c : Char) : Bool := isAsciiLetter c || isSpaceChar c

/-- The alternation `today|now|tomorrow|weather|forecast` of the first
pattern of `extract_city_name`. -/
def kwList : List (List Char) :=
  ["today".data, "now".data, "tomorrow".data, "weather".data, "forecast".data]

/-- Does `[\s\?\,\.]*$` match the whole of `cs`?  The greedy star can
consume every whitespace/punctuation character, and `$` also accepts a
final newline, which is itself in the class, so this is exactly "every
character is in the class". -/
def tailPunct (cs : List Char) : Bool :=
  cs.all (fun c => isSpaceChar c || c == '?' || c == ',' || c == '.')

/-- Does `\s+(?:today|now|tomorrow|weather|forecast)[\s\?\,\.]*$` match
the whole of `cs`?  Because every keyword starts with a letter, `\s+` can
only succeed by consuming the entire leading whitespace run. -/
def optKw (cs : List Char) : Bool :=
  let ws := cs.takeWhile isSpaceChar
  let rest := cs.dropWhile isSpaceChar
  !ws.isEmpty && kwList.any (fun kw => matchesAt kw rest && tailPunct (rest.drop kw.length))

/-- Remainder of pattern 1 after the capture group:
`(?:\s+(?:today|now|tomorrow|weather|forecast))?[\s\?\,\.]*$`.  The
optional group's greedy/lazy order does not affect whether a match
exists, so existence is the disjunction of the two alternatives. -/
def restMatches1 (cs : List Char) : Bool := optKw cs || tailPunct cs

/-- Lazy `+?` capture: starting from accumulated capture `acc`, consume
one class character at a time and stop at the first point where the rest
of the pattern matches the remaining input — exactly Python's shortest-
first backtracking order for `([...]+?)`.  Returns the captured text. -/
def lazyExtend (cls : Char → Bool) (restOk : List Char → Bool) :
    List Char → List Char → Option (List Char)
  | _, [] => none
  | acc, c :: cs =>
    if cls c then
      if restOk cs then some (acc ++ [c]) else lazyExtend cls restOk (acc ++ [c]) cs
    else none

/-- Group 1 of `re.search(r"in ([a-zA-Z\s]+?)(?:\s+(?:today|now|tomorrow|weather|forecast))?[\s\?\,\.]*$", text)`:
try each start position left to right; where the literal `in ` matches,
take the shortest lazy capture whose remainder matches; otherwise move the
start one character right. -/
def searchPat1 : List Char → Option (List Char)
  | [] => none
  | c :: cs =>
    match (if matchesAt "in ".data (c :: cs)
           then lazyExtend cls1 restMatches1 [] ((c :: cs).drop 3)
           else none) with
    | some g => some g
    | none => searchPat1 cs

/-- Remainder of pattern 2 after the capture group: `\s+weather`.
`weather` starts with a letter, so `\s+` must consume the entire leading
whitespace run. -/
def restOk2 (cs : List Char) : Bool :=
  !(cs.takeWhile isSpaceChar).isEmpty && matchesAt "weather".data (cs.dropWhile isSpaceChar)

/-- Group 1 of `re.search(r"([a-zA-Z\s]+?)\s+weather", text)`. -/
def searchPat2 : List Char → Option (List Char)
  | [] => none
  | c :: cs =>
    match lazyExtend cls1 restOk2 [] (c :: cs) with
    | some g => some g
    | none => searchPat2 cs

/-- Python `str.title()` on a character list: a letter that follows a
non-letter is uppercased, any other letter is lowercased (ASCII model of
Python's cased/uncased distinction).  The flag records whether the
previous character was a letter. -/
def titleGo : Bool → List Char → List Char
  | _, [] => []
  | prev, c :: cs =>
    if isAsciiLetter c then
      (if prev then lowerChar c else upperChar c) :: titleGo true cs
    else
      c :: titleGo false cs

/-- Python `str.title()`. -/
def pyTitleList (cs : List Char) : List Char := titleGo false cs

/-- Embedding of `weather.extract_city_name(user_query, default_city)`:
lowercase the query, try pattern 1 then pattern 2, return the winning
group stripped and title-cased, else the default city unchanged.  (The
Python default argument value "Hyderabad" is supplied explicitly by the
callers modelled here.) -/
def extract_city_name (user_query : String) (default_city : String) : String :=
  match searchPat1 (pyLower user_query).data with
  | some g => String.mk (pyTitleList (stripList g))
  | none =>
    match searchPat2 (pyLower user_query).data with
    | some g => String.mk (pyTitleList (stripList g))
    | none => default_city

/-- JSON-ish Python runtime values flowing through the weather helpers:
what `resp.json()` or a monkeypatched stub can hand to
`fetch_weather_for_city` and `summarise_onecall`.  `numV` carries a
rational and conflates Python `int` and `float`; the conflation is only
visible when printing a whole-number float, which no claim exercises. -/
inductive JVal where
  | noneV
  | boolV (b : Bool)
  | numV (q : ℚ)
  | strV (s : String)
  | tupV (xs : List JVal)
  | listV (xs : List JVal)
  | dictV (kvs : List (String × JVal))

/-- Python type name of a value, as it appears in error messages
(`numV` is called `float`; see `JVal` on the int/float conflation). -/
def typeName : JVal → String
  | .noneV => "NoneType"
  | .boolV _ => "bool"
  | .numV _ => "float"
  | .strV _ => "str"
  | .tupV _ => "tuple"
  | .listV _ => "list"
  | .dictV _ => "dict"

/-- Python truthiness: `None`, `False`, zero and empty containers/strings
are falsy, everything else is truthy.  (A rational is zero exactly when
its normalized numerator is.) -/
def pyTruthy : JVal → Bool
  | .noneV => false
  | .boolV b => b
  | .numV q => !(q.num == 0)
  | .strV s => !(strEmpty s)
  | .tupV xs => !xs.isEmpty
  | .listV xs => !xs.isEmpty
  | .dictV kvs => !kvs.isEmpty

/-- Python `len(v)`: defined for sized values, `none` models the
`TypeError` that `len` raises on the rest. -/
def pyLen : JVal → Option Nat
  | .strV s => some s.data.length
  | .tupV xs => some xs.length
  | .listV xs => some xs.length
  | .dictV kvs => some kvs.length
  | _ => none

/-- First binding of a key in a key/value list (Python dict lookup; dict
keys are unique so first-match is exact). -/
def lookupKV : List (String × JVal) → String → Option JVal
  | [], _ => none
  | (k, v) :: kvs, key => if k == key then some v else lookupKV kvs key

/-- Python `d.get(key)`: the value if present, else `None`. -/
def dictGet (kvs : List (String × JVal)) (key : String) : JVal :=
  (lookupKV kvs key).getD .noneV

/-- Decimal digits of the fractional part `num/den` (0 ≤ num < den),
produced by long division; `fuel` bounds the expansion (Python floats are
dyadic rationals, so their expansion always terminates well within it). -/
def fracDigits (fuel : Nat) (num den : Nat) : String :=
  match fuel, num with
  | 0, _ => ""
  | _, 0 => ""
  | Nat.succ f, n => toString (n * 10 / den) ++ fracDigits f (n * 10 % den) den

/-- Decimal rendering of a rational (model of Python `str` on numbers:
`str(61)` is `61`, `str(5.14)` is `5.14`).  Works on the numerator and
denominator directly. -/
def ratStr (q : ℚ) : String :=
  let na := q.num.natAbs
  let base :=
    if q.den = 1 then toString na
    else toString (na / q.den) ++ "." ++ fracDigits 60 (na % q.den) q.den
  if q.num < 0 then "-" ++ base else base

mutual

/-- Python `repr` of a value (ASCII model: strings are always rendered
with single quotes).  Appears in the `Unexpected geocode response
format: ...` message. -/
def reprJVal : JVal → String
  | .noneV => "None"
  | .boolV true => "True"
  | .boolV false => "False"
  | .numV q => ratStr q
  | .strV s => "\x27" ++ s ++ "\x27"
  | .tupV [x] => "(" ++ reprJVal x ++ ",)"
  | .tupV xs => "(" ++ String.intercalate ", " (reprJList xs) ++ ")"
  | .listV xs => "[" ++ String.intercalate ", " (reprJList xs) ++ "]"
  | .dictV kvs => "\x7b" ++ String.intercalate ", " (reprJPairs kvs) ++ "\x7d"

/-- Helper for `reprJVal`: repr of each element of a list. -/
def reprJList : List JVal → List String
  | [] => []
  | x :: xs => reprJVal x :: reprJList xs

/-- Helper for `reprJVal`: repr of each dict entry. -/
def reprJPairs : List (String × JVal) → List String
  | [] => []
  | (k, v) :: kvs => ("\x27" ++ k ++ "\x27: " ++ reprJVal v) :: reprJPairs kvs

end

/-- Python `str(v)`: identity on strings, decimal on numbers, `repr`
on containers. -/
def pyStr : JVal → String
  | .strV s => s
  | v => reprJVal v

/-- Python exceptions distinguished by the claims: `ValueError` (what
`fetch_weather_for_city` raises itself), `TypeError` (what `len` raises
on unsized values) and any other exception (network errors from the
stubbed HTTP calls). -/
inductive PyErr where
  | valueError (msg : String)
  | typeError (msg : String)
  | otherError (msg : String)

/-- Python `str(e)` of an exception: its message. -/
def pyMsg : PyErr → String
  | .valueError m => m
  | .typeError m => m
  | .otherError m => m

/-- Did a computation raise a `ValueError`? -/
def isValueErr {α : Type} : Except PyErr α → Bool
  | .error (.valueError _) => true
  | _ => false

/-- Embedding of the response-checking part of `fetch_weather_for_city`
(`weather.py` lines 84-95): `if not data or len(data) == 0: raise
ValueError`, then the tuple/list `isinstance` chain, with the extracted
`(lat, lon)` on success.  The short-circuit `or` is kept: a falsy value
raises the `ValueError` without `len` being called, while a truthy
unsized value makes `len` raise a `TypeError`. -/
def geocodeParse (data : JVal) (city country_hint : String) : Except PyErr (JVal × JVal) :=
  if !pyTruthy data then
    .error (.valueError ("Could not geocode city: " ++ city ++ "," ++ country_hint))
  else
    match pyLen data with
    | none => .error (.typeError ("object of type \x27" ++ typeName data ++ "\x27 has no len()"))
    | some n =>
      if n == 0 then
        .error (.valueError ("Could not geocode city: " ++ city ++ "," ++ country_hint))
      else
        match data with
        | .tupV [la, lo] => .ok (la, lo)
        | .listV (.dictV kvs :: _) => .ok (dictGet kvs "lat", dictGet kvs "lon")
        | _ => .error (.valueError ("Unexpected geocode response format: " ++ pyStr data))

/-- Is the value sized, i.e. does Python `len` accept it? -/
def pySized : JVal → Bool
  | .strV _ => true
  | .tupV _ => true
  | .listV _ => true
  | .dictV _ => true
  | _ => false

/-- The shapes `fetch_weather_for_city` actually accepts: a tuple of
length two, or a non-empty list whose first element is a dict (whether
or not it carries `lat`/`lon` keys). -/
def okShape : JVal → Bool
  | .tupV xs => xs.length == 2
  | .listV (.dictV _ :: _) => true
  | _ => false

/-- The accepted shapes as the claim words them: a bare `(lat, lon)` pair
of length two, or a non-empty list whose first element is an object
exposing latitude/longitude fields — read strictly, a dict that actually
has both keys. -/
def claimShape : JVal → Bool
  | .tupV xs => xs.length == 2
  | .listV (.dictV kvs :: _) =>
    !(lookupKV kvs "lat").isNone && !(lookupKV kvs "lon").isNone
  | _ => false

/-- Python `v[key]` with a string key; the error string is `str` of the
raised exception (`str` of a `KeyError` is the `repr` of the key). -/
def pyGetItemKey (v : JVal) (key : String) : Except String JVal :=
  match v with
  | .dictV kvs =>
    match lookupKV kvs key with
    | some x => .ok x
    | none => .error ("\x27" ++ key ++ "\x27")
  | .listV _ => .error "list indices must be integers or slices, not str"
  | .tupV _ => .error "tuple indices must be integers or slices, not str"
  | .strV _ => .error "string indices must be integers"
  | v2 => .error ("\x27" ++ typeName v2 ++ "\x27 object is not subscriptable")

/-- Python `v[0]` (the dict model has string keys only, so `d[0]` on a
dict is a `KeyError` whose `str` is `0`). -/
def pyGetItem0 (v : JVal) : Except String JVal :=
  match v with
  | .listV (x :: _) => .ok x
  | .listV [] => .error "list index out of range"
  | .tupV (x :: _) => .ok x
  | .tupV [] => .error "tuple index out of range"
  | .dictV _ => .error "0"
  | .strV s =>
    match s.data with
    | [] => .error "string index out of range"
    | c :: _ => .ok (.strV (String.mk [c]))
  | v2 => .error ("\x27" ++ typeName v2 ++ "\x27 object is not subscriptable")

/-- Python `str.capitalize()`: first character uppercased, the rest
lowercased (ASCII case maps). -/
def pyCapitalizeStr (s : String) : String :=
  match s.data with
  | [] => ""
  | c :: cs => String.mk (upperChar c :: cs.map lowerChar)

/-- Python `v.capitalize()`: only strings have the attribute. -/
def pyCapitalize (v : JVal) : Except String String :=
  match v with
  | .strV s => .ok (pyCapitalizeStr s)
  | v2 => .error ("\x27" ++ typeName v2 ++ "\x27 object has no attribute \x27capitalize\x27")

/-- Round the fraction `a / b` (with `b > 0`) to the nearest integer,
ties to even — the rounding of Python's `format(x, '.1f')` (exact on the
dyadic rationals that Python floats are). -/
def roundHalfEvenFrac (a : Int) (b : Nat) : Int :=
  let f := Int.fdiv a b
  let r := a - f * b
  if 2 * r < (b : Int) then f
  else if (b : Int) < 2 * r then f + 1
  else if f % 2 = 0 then f else f + 1

/-- Fixed one-decimal rendering of a nonnegative tenth-count: `292`
becomes `29.2`. -/
def fmt1NN (m : Nat) : String := toString (m / 10) ++ "." ++ toString (m % 10)

/-- Python `f"{q:.1f}"` on a number. -/
def fmt1 (q : ℚ) : String :=
  let n := roundHalfEvenFrac (10 * q.num) q.den
  if n < 0 then "-" ++ fmt1NN (-n).toNat else fmt1NN n.toNat

/-- Python `f"{v:.1f}"`: the `.1f` format code only accepts numbers. -/
def pyFmt1 (v : JVal) : Except String String :=
  match v with
  | .numV q => .ok (fmt1 q)
  | v2 => .error ("Unknown format code \x27f\x27 for object of type \x27" ++ typeName v2 ++ "\x27")

/-- Embedding of the `try` block of `summarise_onecall` (`weather.py`
lines 59-73): the subscriptions, the `capitalize` call and the f-string
formats, in source order, each able to raise; on success the formatted
summary sentence. -/
def parseOnecall (weather_json : JVal) (city_name : String) : Except String String := do
  let current ← pyGetItemKey weather_json "current"
  let wlist ← pyGetItemKey current "weather"
  let w0 ← pyGetItem0 wlist
  let descRaw ← pyGetItemKey w0 "description"
  let desc ← pyCapitalize descRaw
  let temp ← pyGetItemKey current "temp"
  let feels ← pyGetItemKey current "feels_like"
  let hum ← pyGetItemKey current "humidity"
  let wind ← pyGetItemKey current "wind_speed"
  let ts ← pyFmt1 temp
  let fs ← pyFmt1 feels
  .ok ("Current weather in " ++ city_name ++ ": " ++ ts ++ "°C (feels like "
       ++ fs ++ "°C), humidity " ++ pyStr hum ++ "%, " ++ desc ++ ", wind "
       ++ pyStr wind ++ " m/s.")

/-- The apology string of `summarise_onecall`'s `except` branch. -/
def summariseApology (e : String) : String :=
  "Sorry, I couldn’t parse the weather data correctly: " ++ e

/-- Embedding of `weather.summarise_onecall`: the `try` body, with every
parsing failure caught and turned into the apology string. -/
def summarise_onecall (weather_json : JVal) (city_name : String) : String :=
  match parseOnecall weather_json city_name with
  | .ok s => s
  | .error e => summariseApology e

/-- The One Call payload used by the repository's tests
(`tests/test_api.py::test_summarise_onecall`). -/
def mockOnecall : JVal :=
  .dictV [("current", .dictV
    [("temp", .numV (mkRat 146 5)), ("feels_like", .numV (mkRat 63 2)),
     ("humidity", .numV 61), ("wind_speed", .numV (mkRat 257 50)),
     ("weather", .listV [.dictV [("description", .strV "scattered clouds")]])])]

/-- A LangChain `Document` as `retrieve_context` sees it: only its
`page_content` is read. -/
structure Doc where
  page_content : String

/-- A role-tagged chat message (`SystemMessage` / `HumanMessage`). -/
inductive Msg where
  | system (content : String)
  | human (content : String)

/-- Outbound calls a pipeline run can make: the chat model, the
geocoding endpoint, the One Call endpoint, the vector store's
similarity search. -/
inductive Event where
  | llmCall (msgs : List Msg)
  | geocodeCall (city country_hint : String)
  | onecallCall (lat lon : JVal)
  | searchCall (query : String) (k : Nat)

/-- The external collaborators of the pipeline.  `llm` returns
`resp.content`, which LangChain types as optional; `geocode` and
`onecall` return the parsed JSON of the HTTP responses or the exception
the call raised; `search` is `vector_store.similarity_search`. -/
structure Env where
  llm : List Msg → Option String
  search : String → Nat → List Doc
  geocode : String → String → Except PyErr JVal
  onecall : JVal → JVal → Except PyErr JVal

/-- The four fields of `GraphState` in `graph.py`. -/
inductive StateField where
  | question
  | route
  | context
  | answer
deriving DecidableEq

/-- The `GraphState` record of `graph.py`: question plus the three
optional fields the nodes fill in. -/
structure GraphState where
  question : String
  route : Option String
  context : Option String
  answer : Option String

/-- A node's return value: the dictionary of state-field writes, in the
order the Python dict literal lists them. -/
abbrev Update := List (StateField × String)

/-- Apply one field write to the state. -/
def setField (s : GraphState) : StateField × String → GraphState
  | (.question, v) => { s with question := v }
  | (.route, v) => { s with route := some v }
  | (.context, v) => { s with context := some v }
  | (.answer, v) => { s with answer := some v }

/-- Merge a node's writes into the state (LangGraph channel update). -/
def applyUpdate (s : GraphState) (u : Update) : GraphState :=
  u.foldl setField s

/-- The system instruction of `decision_node` (the adjacent Python string
literals concatenated). -/
def decisionSys : String :=
  "You are a classifier. If the user is asking about the weather, output \x27weather\x27. Otherwise output \x27pdf\x27. Return only that word."

/-- The message list `decision_node` sends to the model. -/
def decisionMsgs (question : String) : List Msg :=
  [Msg.system decisionSys, Msg.human question]

/-- The route computation of `decision_node` on the model's reply:
`route = (resp.content or "").strip().lower()` then
`route = "weather" if "weather" in route else "pdf"`. -/
def decisionRoute (reply : Option String) : String :=
  let route := pyLower (pyStrip (reply.getD ""))
  if hasSub route.data "weather".data then "weather" else "pdf"

/-- Embedding of `decision_node`: one model call, then the route
fallback; returns the write set and the calls made. -/
def decision_node (env : Env) (question : String) : Update × List Event :=
  let msgs := decisionMsgs question
  let route := decisionRoute (env.llm msgs)
  ([(.route, route)], [.llmCall msgs])

/-- Embedding of `weather.fetch_weather_for_city`: extract the city,
geocode it (network error or the `ValueError`/`TypeError` checks of
`geocodeParse` can fail), fetch the One Call data, summarise.  Returns
the result or the exception, and the outbound calls made. -/
def fetch_weather_for_city (env : Env) (user_query default_city country_hint : String) :
    Except PyErr String × List Event :=
  let city := extract_city_name user_query default_city
  match env.geocode city country_hint with
  | .error e => (.error e, [.geocodeCall city country_hint])
  | .ok data =>
    match geocodeParse data city country_hint with
    | .error e => (.error e, [.geocodeCall city country_hint])
    | .ok (lat, lon) =>
      match env.onecall lat lon with
      | .error e => (.error e, [.geocodeCall city country_hint, .onecallCall lat lon])
      | .ok w =>
        (.ok (summarise_onecall w city), [.geocodeCall city country_hint, .onecallCall lat lon])

/-- The apology context of `weather_node`'s `except` branch. -/
def weatherApology (ex : String) : String :=
  "Sorry, I couldn’t fetch the weather right now: " ++ ex

/-- Embedding of `weather_node`: call `fetch_weather_for_city` with the
fixed `default_city="Hyderabad"` and `country_hint="IN"`, catch any
exception into the apology string, and write `context` then `route`
(the order of the returned dict literal). -/
def weather_node (env : Env) (question : String) : Update × List Event :=
  let r := fetch_weather_for_city env question "Hyderabad" "IN"
  let summary :=
    match r.1 with
    | .ok s => s
    | .error ex => weatherApology (pyMsg ex)
  ([(.context, summary), (.route, "weather")], r.2)

/-- Embedding of `rag.retrieve_context`: run the similarity search, fold
the documents' text into a list (the Python `for` loop with `append`),
and join with a blank line. -/
def retrieve_context (search : String → Nat → List Doc) (query : String) (k : Nat) : String :=
  let docs := search query k
  let contents := docs.foldl (fun acc d => acc ++ [d.page_content]) ([] : List String)
  String.intercalate "\n\n" contents

/-- Python `a or b` on strings: `b` when `a` is falsy (empty). -/
def pyOrStr (a b : String) : String :=
  if strEmpty a then b else a

/-- Embedding of `rag_node`: retrieve context with `k=5`, defaulting to
the empty string, and write `context` then `route`. -/
def rag_node (env : Env) (question : String) : Update × List Event :=
  let context := pyOrStr (retrieve_context env.search question 5) ""
  ([(.context, context), (.route, "pdf")], [.searchCall question 5])

/-- The part of `answer_node`'s contextful system prompt that precedes
the verbatim context. -/
def answerSysPre : String :=
  "You are a helpful assistant. The following context contains the exact answer to the user\x27s question. Use the context directly and DO NOT reply with \x27I don\x27t know\x27. Respond concisely.\n\nContext:\n"

/-- `answer_node`'s system prompt for an empty context. -/
def answerSysPlain : String :=
  "You are a helpful assistant. Answer the question to the best of your ability."

/-- The system prompt `answer_node` builds: the contextful prompt with
the context embedded verbatim when `context.strip()` is truthy, the
plain prompt otherwise. -/
def answerSys (context : String) : String :=
  if !(strEmpty (pyStrip context)) then answerSysPre ++ context ++ "\n\n"
  else answerSysPlain

/-- The message list `answer_node` sends to the model. -/
def answerMsgs (question context : String) : List Msg :=
  [Msg.system (answerSys context), Msg.human question]

/-- Embedding of `answer_node`: read the context (`state.get("context")
or ""`), build the prompt by cases, make one model call, write the
trimmed reply as `answer`. -/
def answer_node (env : Env) (question : String) (contextOpt : Option String) :
    Update × List Event :=
  let context := contextOpt.getD ""
  let msgs := answerMsgs question context
  let answer := pyStrip ((env.llm msgs).getD "")
  ([(.answer, answer)], [.llmCall msgs])

/-- The conditional-edge mapping
`{"weather": "weather", "pdf": "rag"}` of `build_pipeline`; `none`
models the unhandled error LangGraph raises on an unknown route. -/
def branchTarget (route : String) : Option String :=
  if route = "weather" then some "weather"
  else if route = "pdf" then some "rag"
  else none

/-- One invocation of the compiled graph: decision, then the branch node
chosen by the route, then answer.  Returns the final state together with
the trace of write sets `(node name, update)` in execution order;
`Except.error` models the unhandled failure on a missing/unknown route
(unreachable given `decision_node`'s fallback, as proved below). -/
def runPipeline (env : Env) (question : String) :
    Except String (GraphState × List (String × Update)) :=
  let s0 : GraphState := { question := question, route := none, context := none, answer := none }
  let u1 := (decision_node env s0.question).1
  let s1 := applyUpdate s0 u1
  match s1.route with
  | none => .error "route missing"
  | some r =>
    match branchTarget r with
    | none => .error ("unknown route: " ++ r)
    | some nodeName =>
      let u2 := if nodeName = "weather" then (weather_node env s1.question).1
                else (rag_node env s1.question).1
      let s2 := applyUpdate s1 u2
      let u3 := (answer_node env s2.question s2.context).1
      let s3 := applyUpdate s2 u3
      .ok (s3, [("decision", u1), (nodeName, u2), ("answer", u3)])

/-- All writes to one field in a trace, as `(node name, value)` pairs in
execution order. -/
def fieldWrites (f : StateField) (tr : List (String × Update)) : List (String × String) :=
  tr.foldr
    (fun nu acc =>
      (nu.2.filterMap (fun p => if p.1 = f then some (nu.1, p.2) else none)) ++ acc)
    []

/-- The node names that wrote the route, extracted from a run's result
(empty on a failed run). -/
def routeWriters (r : Except String (GraphState × List (String × Update))) : List String :=
  match r with
  | .ok res => (fieldWrites .route res.2).map Prod.fst
  | .error _ => []

/-- A fully offline environment: the model always answers `pdf`, the
search finds nothing, both HTTP calls fail. -/
def stubEnv : Env where
  llm := fun _ => some "pdf"
  search := fun _ _ => []
  geocode := fun _ _ => .error (.otherError "offline")
  onecall := fun _ _ => .error (.otherError "offline")

/-- A geocoding response of the shape the real endpoint returns. -/
def geoOkData : JVal := .listV [.dictV [("lat", .numV 17), ("lon", .numV 78)]]

/-- An environment where every outbound call succeeds. -/
def okEnv : Env where
  llm := fun _ => some "weather"
  search := fun _ _ => []
  geocode := fun _ _ => .ok geoOkData
  onecall := fun _ _ => .ok mockOnecall

/-- The summary string `weather_node` puts into the context: the
fetched summary, or the apology on an exception. -/
def weatherSummary (env : Env) (q : String) : String :=
  match (fetch_weather_for_city env q "Hyderabad" "IN").1 with
  | .ok s => s
  | .error ex => weatherApology (pyMsg ex)

/-- The context string `rag_node` writes. -/
def ragContext (env : Env) (q : String) : String :=
  pyOrStr (retrieve_context env.search q 5) ""

/-- The answer string `answer_node` writes for a given context. -/
def answerOf (env : Env) (q context : String) : String :=
  pyStrip ((env.llm (answerMsgs q context)).getD "")

lemma weather_node_eq (env : Env) (q : String) :
    weather_node env q =
      ([(.context, weatherSummary env q), (.route, "weather")],
       (fetch_weather_for_city env q "Hyderabad" "IN").2) := rfl

lemma rag_node_eq (env : Env) (q : String) :
    rag_node env q = ([(.context, ragContext env q), (.route, "pdf")], [.searchCall q 5]) := rfl

lemma answer_node_eq (env : Env) (q : String) (c : Option String) :
    answer_node env q c =
      ([(.answer, answerOf env q (c.getD ""))], [.llmCall (answerMsgs q (c.getD ""))]) := rfl

lemma decisionRoute_cases (reply : Option String) :
    decisionRoute reply = "weather" ∨ decisionRoute reply = "pdf" := by
  cases h : hasSub (pyLower (pyStrip (reply.getD ""))).data "weather".data
  · right; simp [decisionRoute, h]
  · left; simp [decisionRoute, h]

/-- Every run of the pipeline takes exactly one of the two branches and
produces the fully determined state and write trace shown here. -/
lemma runPipeline_cases (env : Env) (q : String) :
    runPipeline env q = .ok
      (⟨q, some "weather", some (weatherSummary env q), some (answerOf env q (weatherSummary env q))⟩,
       [("decision", [(.route, "weather")]),
        ("weather", [(.context, weatherSummary env q), (.route, "weather")]),
        ("answer", [(.answer, answerOf env q (weatherSummary env q))])])
    ∨ runPipeline env q = .ok
      (⟨q, some "pdf", some (ragContext env q), some (answerOf env q (ragContext env q))⟩,
       [("decision", [(.route, "pdf")]),
        ("rag", [(.context, ragContext env q), (.route, "pdf")]),
        ("answer", [(.answer, answerOf env q (ragContext env q))])]) := by
  rcases decisionRoute_cases (env.llm (decisionMsgs q)) with h | h
  · left
    unfold runPipeline decision_node
    simp only [h, applyUpdate, setField, List.foldl, branchTarget, if_pos,
      weather_node_eq, answer_node_eq, rag_node_eq]
    rfl
  · right
    unfold runPipeline decision_node
    simp only [h, applyUpdate, setField, List.foldl, branchTarget,
      weather_node_eq, answer_node_eq, rag_node_eq]
    rfl

/-- C1: for every model reply, the decision step routes to "weather"
exactly when the stripped, lowercased reply contains the substring
"weather", and to "pdf" otherwise (a `None` or empty reply included);
the route is always one of these two labels, and `decision_node` writes
exactly that route. -/
theorem C1_decision_route :
    (∀ env question,
      (decision_node env question).1 =
        [(.route, decisionRoute (env.llm (decisionMsgs question)))])
    ∧ (∀ reply, decisionRoute reply = "weather" ∨ decisionRoute reply = "pdf")
    ∧ (∀ reply, decisionRoute reply = "weather" ↔
        hasSub (pyLower (pyStrip (reply.getD ""))).data "weather".data = true)
    ∧ decisionRoute none = "pdf" ∧ decisionRoute (some "") = "pdf"
    ∧ decisionRoute (some " The answer is Weather. ") = "weather" := by
  refine ⟨fun env q => rfl, decisionRoute_cases, fun reply => ?_, by decide, by decide, by decide⟩
  unfold decisionRoute
  cases h : hasSub (pyLower (pyStrip (reply.getD ""))).data "weather".data <;> simp [h]

/-- C2 counterexample: on the concrete offline environment and question
"hi", the route field is written twice — once by the decision node and
again by the rag node — so it is not written exactly once by the
decision step. -/
theorem C2_counterexample :
    routeWriters (runPipeline stubEnv "hi") = ["decision", "rag"]
    ∧ routeWriters (runPipeline stubEnv "hi") ≠ ["decision"] := by
  constructor
  · decide
  · decide

/-- C2 (amended): on every run the route field is written exactly twice,
first by the decision node and then by the branch node it selected, both
times with the same value; the question field is never written by a
node, and context and answer are each written exactly once. -/
theorem C2_route_writes :
    ∀ env question, ∃ st tr,
      runPipeline env question = .ok (st, tr)
      ∧ (∃ r node2, fieldWrites .route tr = [("decision", r), (node2, r)])
      ∧ fieldWrites .question tr = []
      ∧ (fieldWrites .context tr).length = 1
      ∧ (fieldWrites .answer tr).length = 1 := by
  intro env q
  rcases runPipeline_cases env q with h | h
  · exact ⟨_, _, h, ⟨"weather", "weather", rfl⟩, rfl, rfl, rfl⟩
  · exact ⟨_, _, h, ⟨"pdf", "rag", rfl⟩, rfl, rfl, rfl⟩


/-- C3: whenever the weather path fails with an exception, `weather_node`
catches it and writes the apology context embedding the exception
message (and still marks the route); and every pipeline run reaches the
answer node — the final state always carries an answer, so a
weather-path failure alone never aborts the run. -/
theorem C3_weather_node_catches :
    (∀ env question e,
      (fetch_weather_for_city env question "Hyderabad" "IN").1 = .error e →
      (weather_node env question).1 =
        [(.context, weatherApology (pyMsg e)), (.route, "weather")])
    ∧ (∀ env question, ∃ st tr,
        runPipeline env question = .ok (st, tr) ∧ st.answer.isSome = true) := by
  constructor
  · intro env q e h
    rw [weather_node_eq]
    unfold weatherSummary
    rw [h]
  · intro env q
    rcases runPipeline_cases env q with h | h
    · exact ⟨_, _, h, rfl⟩
    · exact ⟨_, _, h, rfl⟩

/-- C3 witness: on the offline environment the geocoding call raises, and
the weather node's context is the apology embedding the message. -/
theorem C3_weather_node_catches_witness :
    (weather_node stubEnv "What is the weather in Paris?").1 =
      [(.context, "Sorry, I couldn’t fetch the weather right now: offline"), (.route, "weather")] :=
  C3_weather_node_catches.1 stubEnv "What is the weather in Paris?" (.otherError "offline") rfl

lemma extract_pat1 (q d : String) (g : List Char)
    (h : searchPat1 (pyLower q).data = some g) :
    extract_city_name q d = String.mk (pyTitleList (stripList g)) := by
  unfold extract_city_name
  rw [h]

lemma extract_pat2 (q d : String) (g : List Char)
    (h1 : searchPat1 (pyLower q).data = none)
    (h2 : searchPat2 (pyLower q).data = some g) :
    extract_city_name q d = String.mk (pyTitleList (stripList g)) := by
  unfold extract_city_name
  rw [h1, h2]

lemma extract_default (q d : String)
    (h1 : searchPat1 (pyLower q).data = none)
    (h2 : searchPat2 (pyLower q).data = none) :
    extract_city_name q d = d := by
  unfold extract_city_name
  rw [h1, h2]

/-- C4: `extract_city_name` tries pattern 1 ("in ⟨city⟩ …") before
pattern 2 ("⟨city⟩ weather"); the winning group is returned stripped and
title-cased, and when neither pattern matches the caller-supplied
default is returned unchanged.  The four spec examples evaluate as
stated (the third with a different default, showing the value comes from
the pattern and not the default). -/
theorem C4_extract_city_name :
    (∀ d, extract_city_name "What is the weather in Paris today?" d = "Paris")
    ∧ (∀ d, extract_city_name "tell me the weather in New York now" d = "New York")
    ∧ (∀ d, extract_city_name "Hyderabad weather now" d = "Hyderabad")
    ∧ (∀ d, extract_city_name "What\x27s up?" d = d)
    ∧ (∀ q d g, searchPat1 (pyLower q).data = some g →
        extract_city_name q d = String.mk (pyTitleList (stripList g)))
    ∧ (∀ q d g, searchPat1 (pyLower q).data = none →
        searchPat2 (pyLower q).data = some g →
        extract_city_name q d = String.mk (pyTitleList (stripList g)))
    ∧ (∀ q d, searchPat1 (pyLower q).data = none →
        searchPat2 (pyLower q).data = none → extract_city_name q d = d) := by
  refine ⟨fun d => ?_, fun d => ?_, fun d => ?_,
    fun d => extract_default _ _ (by decide) (by decide),
    extract_pat1, extract_pat2, extract_default⟩
  · exact (extract_pat1 _ d "paris".data (by decide)).trans (by decide)
  · exact (extract_pat1 _ d "new york".data (by decide)).trans (by decide)
  · exact (extract_pat2 _ d "hyderabad".data (by decide) (by decide)).trans (by decide)

/-- C4 witness: the pattern-match hypotheses discharged at concrete
inputs — a question where both patterns would match takes pattern 1's
answer ("Paris", not "Nice"), one where only pattern 2 matches yields its
group, and one where neither matches yields the default. -/
theorem C4_extract_city_name_witness :
    extract_city_name "Nice weather in Paris" "X" = "Paris"
    ∧ extract_city_name "fine weather today" "X" = "Fine"
    ∧ extract_city_name "hello there" "X" = "X" := by
  refine ⟨?_, ?_, ?_⟩
  · exact (C4_extract_city_name.2.2.2.2.1 "Nice weather in Paris" "X" "paris".data
      (by decide)).trans (by decide)
  · exact (C4_extract_city_name.2.2.2.2.2.1 "fine weather today" "X" "fine".data
      (by decide) (by decide)).trans (by decide)
  · exact C4_extract_city_name.2.2.2.2.2.2 "hello there" "X" (by decide) (by decide)

/-- C9: `weather_node` always invokes the weather path with the fixed
default city "Hyderabad" and country hint "IN": its outbound calls are
exactly the weather path's, the first outbound call geocodes the
extracted city with hint "IN", a question matching neither pattern
extracts to "Hyderabad" itself, and on a successful path the summary is
generated for that extracted city. -/
theorem C9_default_city :
    (∀ env question,
      (weather_node env question).2 =
        (fetch_weather_for_city env question "Hyderabad" "IN").2)
    ∧ (∀ env question, ∃ rest,
        (fetch_weather_for_city env question "Hyderabad" "IN").2 =
          Event.geocodeCall (extract_city_name question "Hyderabad") "IN" :: rest)
    ∧ (∀ question, searchPat1 (pyLower question).data = none →
        searchPat2 (pyLower question).data = none →
        extract_city_name question "Hyderabad" = "Hyderabad")
    ∧ (∀ env question data lat lon w,
        env.geocode (extract_city_name question "Hyderabad") "IN" = .ok data →
        geocodeParse data (extract_city_name question "Hyderabad") "IN" = .ok (lat, lon) →
        env.onecall lat lon = .ok w →
        (fetch_weather_for_city env question "Hyderabad" "IN").1 =
          .ok (summarise_onecall w (extract_city_name question "Hyderabad"))) := by
  refine ⟨fun env q => rfl, ?_, fun q h1 h2 => extract_default q _ h1 h2, ?_⟩
  · intro env q
    rcases hg : env.geocode (extract_city_name q "Hyderabad") "IN" with e | data
    · exact ⟨[], by simp only [fetch_weather_for_city, hg]⟩
    · rcases hp : geocodeParse data (extract_city_name q "Hyderabad") "IN" with e | ⟨lat, lon⟩
      · exact ⟨[], by simp only [fetch_weather_for_city, hg, hp]⟩
      · rcases ho : env.onecall lat lon with e | w
        · exact ⟨[.onecallCall lat lon], by simp only [fetch_weather_for_city, hg, hp, ho]⟩
        · exact ⟨[.onecallCall lat lon], by simp only [fetch_weather_for_city, hg, hp, ho]⟩
  · intro env q data lat lon w hg hp ho
    simp only [fetch_weather_for_city, hg, hp, ho]

/-- C9 witness: a question matching neither pattern falls back to
"Hyderabad", and with every outbound call succeeding the fetched summary
is the one generated for "Hyderabad". -/
theorem C9_default_city_witness :
    extract_city_name "What\x27s up?" "Hyderabad" = "Hyderabad"
    ∧ (fetch_weather_for_city okEnv "What\x27s up?" "Hyderabad" "IN").1 =
        .ok (summarise_onecall mockOnecall "Hyderabad") := by
  constructor
  · exact C9_default_city.2.2.1 "What\x27s up?" (by decide) (by decide)
  · have hcity := C9_default_city.2.2.1 "What\x27s up?" (by decide) (by decide)
    have h := C9_default_city.2.2.2 okEnv "What\x27s up?" geoOkData (.numV 17) (.numV 78) mockOnecall
    rw [hcity] at h
    exact h rfl rfl rfl

lemma toNat_ofNat_valid (n : Nat) (h1 : n < 55296) : (Char.ofNat n).toNat = n := by
  have hv : Nat.isValidChar n := Or.inl h1
  simp only [Char.ofNat, hv, dite_true, Char.ofNatAux, Char.toNat]
  rfl

lemma char_ofNat_toNat (c : Char) : Char.ofNat c.toNat = c := by
  have hv : Nat.isValidChar c.toNat := c.valid
  simp only [Char.ofNat, hv, dite_true, Char.ofNatAux]
  apply Char.ext
  apply UInt32.ext
  rfl

lemma lower_upper_char (c : Char) : lowerChar (upperChar c) = lowerChar c := by
  unfold lowerChar upperChar
  by_cases h : 97 ≤ c.toNat ∧ c.toNat ≤ 122
  · rw [if_pos h]
    have hu : (Char.ofNat (c.toNat - 32)).toNat = c.toNat - 32 :=
      toNat_ofNat_valid _ (by omega)
    rw [if_pos (by omega), if_neg (by omega), hu]
    have : c.toNat - 32 + 32 = c.toNat := by omega
    rw [this, char_ofNat_toNat]
  · rw [if_neg h]

lemma lower_lower_char (c : Char) : lowerChar (lowerChar c) = lowerChar c := by
  unfold lowerChar
  by_cases h : 65 ≤ c.toNat ∧ c.toNat ≤ 90
  · rw [if_pos h]
    have hu : (Char.ofNat (c.toNat + 32)).toNat = c.toNat + 32 :=
      toNat_ofNat_valid _ (by omega)
    rw [if_neg (by omega)]
  · rw [if_neg h, if_neg h]

lemma join_pyUpperChar_ascii (l : List Char)
    (h : l.all (fun c => c.toNat < 128) = true) :
    (l.map pyUpperChar).flatten = l.map upperChar := by
  induction l with
  | nil => rfl
  | cons c t ih =>
    simp only [List.all_cons, Bool.and_eq_true, decide_eq_true_eq] at h
    have hb : c ≠ 'ß' := by
      rintro rfl
      exact absurd h.1 (by decide)
    have hi : c ≠ 'ı' := by
      rintro rfl
      exact absurd h.1 (by decide)
    have hc : pyUpperChar c = [upperChar c] := by
      unfold pyUpperChar
      rw [if_neg hb, if_neg hi]
    simp only [List.map_cons, List.flatten_cons, hc,
      ih (by simpa using h.2), List.singleton_append]

lemma pyLower_pyUpper_ascii (q : String)
    (h : q.data.all (fun c => c.toNat < 128) = true) :
    pyLower (pyUpper q) = pyLower q := by
  show String.mk ((q.data.map pyUpperChar).flatten.map lowerChar) = String.mk (q.data.map lowerChar)
  rw [join_pyUpperChar_ascii q.data h, List.map_map]
  have hcomp : lowerChar ∘ upperChar = lowerChar := funext lower_upper_char
  rw [hcomp]

lemma pyLower_pyLower (q : String) : pyLower (pyLower q) = pyLower q := by
  show String.mk ((q.data.map lowerChar).map lowerChar) = String.mk (q.data.map lowerChar)
  rw [List.map_map]
  have : lowerChar ∘ lowerChar = lowerChar := funext lower_lower_char
  rw [this]

lemma geocodeParse_valueError (data : JVal) (city hint : String) :
    isValueErr (geocodeParse data city hint) =
      (!pyTruthy data || (pySized data && !okShape data)) := by
  cases data with
  | noneV => rfl
  | boolV b => cases b <;> rfl
  | numV q =>
    cases h : q.num == 0 <;>
      simp [geocodeParse, pyTruthy, pyLen, isValueErr, pySized, okShape, h]
  | strV s =>
    obtain ⟨l⟩ := s
    cases l <;> rfl
  | tupV xs =>
    match xs with
    | [] => rfl
    | [a] => rfl
    | [a, b] => rfl
    | a :: b :: c :: t => rfl
  | listV xs =>
    match xs with
    | [] => rfl
    | x :: t => cases x <;> rfl
  | dictV kvs => cases kvs <;> rfl

lemma geocodeParse_okShape (data : JVal) (city hint : String)
    (hshape : okShape data = true) (htr : pyTruthy data = true) :
    ∃ lat lon, geocodeParse data city hint = .ok (lat, lon) := by
  cases data with
  | noneV => simp [okShape] at hshape
  | boolV b => simp [okShape] at hshape
  | numV q => simp [okShape] at hshape
  | strV s => simp [okShape] at hshape
  | dictV kvs => simp [okShape] at hshape
  | tupV xs =>
    match xs with
    | [] => simp [okShape] at hshape
    | [a] => simp [okShape] at hshape
    | [a, b] => exact ⟨a, b, rfl⟩
    | a :: b :: c :: t =>
      rw [okShape] at hshape
      simp only [List.length_cons, Nat.beq_eq_true_eq] at hshape
      omega
  | listV xs =>
    match xs with
    | [] => simp [okShape] at hshape
    | .noneV :: t => simp [okShape] at hshape
    | .boolV b :: t => simp [okShape] at hshape
    | .numV q :: t => simp [okShape] at hshape
    | .strV s :: t => simp [okShape] at hshape
    | .tupV ys :: t => simp [okShape] at hshape
    | .listV ys :: t => simp [okShape] at hshape
    | .dictV kvs :: t => exact ⟨_, _, rfl⟩

/-- C5 counterexample: a truthy non-sized geocoding response — the bare
number 5 — falsifies the claimed equivalence: it is neither empty nor of
either accepted shape, yet the function raises a `TypeError` from
`len(data)`, not a `ValueError`. -/
theorem C5_counterexample :
    ¬ (isValueErr (geocodeParse (.numV 5) "Hyderabad" "IN") = true ↔
       (pyTruthy (.numV 5) = false ∨ claimShape (.numV 5) = false)) := by decide

/-- C5 (amended): the function raises a `ValueError` exactly when the
geocoding response is falsy (empty, `None`, zero) or is a sized value
that is neither a tuple of length two nor a non-empty list whose first
element is a dict; whether the dict carries `lat`/`lon` keys is not
checked (missing keys give `None` coordinates without raising), and a
truthy unsized value instead raises a `TypeError` from `len`.  For
either accepted shape the check succeeds and the coordinates are
extracted. -/
theorem C5_geocode_valueerror :
    ∀ data city hint,
      (isValueErr (geocodeParse data city hint) =
        (!pyTruthy data || (pySized data && !okShape data)))
      ∧ (okShape data = true → pyTruthy data = true →
          ∃ lat lon, geocodeParse data city hint = .ok (lat, lon)) :=
  fun data city hint =>
    ⟨geocodeParse_valueError data city hint,
     fun h1 h2 => geocodeParse_okShape data city hint h1 h2⟩

/-- C5 witness: the real-endpoint-shaped response is accepted — no
`ValueError`, and the coordinates come out. -/
theorem C5_geocode_valueerror_witness :
    isValueErr (geocodeParse geoOkData "Hyderabad" "IN") =
      (!pyTruthy geoOkData || (pySized geoOkData && !okShape geoOkData))
    ∧ ∃ lat lon, geocodeParse geoOkData "Hyderabad" "IN" = .ok (lat, lon) :=
  ⟨(C5_geocode_valueerror geoOkData "Hyderabad" "IN").1,
   (C5_geocode_valueerror geoOkData "Hyderabad" "IN").2 (by decide) (by decide)⟩

/-- C6: `summarise_onecall` never propagates an exception — it is the
total function that returns the parsed summary and otherwise catches the
parsing failure and returns the apology embedding the error detail; on
the repository's own test payload it produces the exact documented
sentence, and on a payload missing the "current" key it produces the
apology embedding the `KeyError` detail. -/
theorem C6_summarise_never_raises :
    (∀ w city, summarise_onecall w city =
      match parseOnecall w city with
      | .ok s => s
      | .error e => summariseApology e)
    ∧ (∀ w city e, parseOnecall w city = .error e →
        summarise_onecall w city =
          "Sorry, I couldn’t parse the weather data correctly: " ++ e)
    ∧ summarise_onecall mockOnecall "Hyderabad" =
        "Current weather in Hyderabad: 29.2°C (feels like 31.5°C), humidity 61%, Scattered clouds, wind 5.14 m/s."
    ∧ summarise_onecall (.dictV []) "X" =
        "Sorry, I couldn’t parse the weather data correctly: \x27current\x27" := by
  refine ⟨fun w city => rfl, ?_, by decide, by decide⟩
  intro w city e h
  unfold summarise_onecall
  rw [h]
  rfl

/-- C6 witness: a payload of the wrong type is caught and turned into
the apology embedding the `TypeError` detail. -/
theorem C6_summarise_never_raises_witness :
    summarise_onecall (.listV []) "X" =
      "Sorry, I couldn’t parse the weather data correctly: list indices must be integers or slices, not str" :=
  C6_summarise_never_raises.2.1 (.listV []) "X" _ rfl

lemma foldl_append_map {α β : Type} (f : α → β) (l : List α) (acc : List β) :
    l.foldl (fun a d => a ++ [f d]) acc = acc ++ l.map f := by
  induction l generalizing acc with
  | nil => simp
  | cons x xs ih => simp [ih]

/-- C7: `retrieve_context` returns exactly the text of the documents the
similarity search yields, in order, joined with a blank line — no
re-ranking, deduplication or thresholding — and the empty string when
the search returns nothing; `rag_node` writes exactly that string (with
the Python `or ""` default) as the context. -/
theorem C7_retrieve_context :
    (∀ search query k, search query k = ([] : List Doc) →
      retrieve_context search query k = "")
    ∧ (∀ search query k,
        retrieve_context search query k =
          String.intercalate "\n\n" ((search query k).map Doc.page_content))
    ∧ (∀ env question,
        (rag_node env question).1 =
          [(.context, pyOrStr (retrieve_context env.search question 5) ""), (.route, "pdf")])
    ∧ retrieve_context (fun _ _ => [⟨"alpha"⟩, ⟨"beta"⟩]) "q" 2 = "alpha\n\nbeta" := by
  refine ⟨?_, ?_, fun env q => rfl, by decide⟩
  · intro s q k h
    simp only [retrieve_context, h]
    rfl
  · intro s q k
    simp only [retrieve_context, foldl_append_map]
    rfl

/-- C7 witness: an empty search result yields the empty context. -/
theorem C7_retrieve_context_witness :
    retrieve_context (fun _ _ => []) "q" 5 = "" :=
  C7_retrieve_context.1 (fun _ _ => []) "q" 5 rfl

/-- C8: `answer_node` makes exactly one model call, whose messages are
the case-built system instruction plus the raw question; the answer it
writes is the model's reply trimmed (`None` treated as empty); a context
that is non-empty after trimming is embedded verbatim in the instruction
that forbids the refusal reply, and a blank context selects the
answer-from-own-knowledge instruction. -/
theorem C8_answer_node :
    ∀ env question c,
      ((answer_node env question c).2 =
        [Event.llmCall [Msg.system (answerSys (c.getD "")), Msg.human question]])
      ∧ ((answer_node env question c).1 =
        [(.answer, pyStrip ((env.llm [Msg.system (answerSys (c.getD "")), Msg.human question]).getD ""))])
      ∧ (strEmpty (pyStrip (c.getD "")) = false →
          answerSys (c.getD "") = answerSysPre ++ (c.getD "") ++ "\n\n")
      ∧ (strEmpty (pyStrip (c.getD "")) = true →
          answerSys (c.getD "") = answerSysPlain)
      ∧ hasSub answerSysPre.data "DO NOT reply with \x27I don\x27t know\x27".data = true
      ∧ hasSub answerSysPre.data "Context:\n".data = true := by
  intro env q c
  refine ⟨rfl, rfl, ?_, ?_, by decide, by decide⟩
  · intro h
    simp [answerSys, h]
  · intro h
    simp [answerSys, h]

/-- C8 witness: the two prompt cases at concrete contexts — a non-blank
context is embedded verbatim, a whitespace-only context selects the
plain prompt. -/
theorem C8_answer_node_witness :
    answerSys "some context" = answerSysPre ++ "some context" ++ "\n\n"
    ∧ answerSys "  " = answerSysPlain := by
  constructor
  · exact (C8_answer_node stubEnv "q" (some "some context")).2.2.1 (by decide)
  · exact (C8_answer_node stubEnv "q" (some "  ")).2.2.2.1 (by decide)

/-- C10 counterexample: `extract_city_name` is not insensitive to letter
case on all queries, because Python `str.upper` expands `ß` to `SS`: the
query "weather in straße" matches neither pattern (`ß` falls outside the
`[a-zA-Z\s]` capture class and the text has no " weather" for pattern 2)
so the default is returned, while its uppercase "WEATHER IN STRASSE"
matches pattern 1 and yields "Strasse". -/
theorem C10_counterexample :
    pyUpper "weather in straße" = "WEATHER IN STRASSE"
    ∧ extract_city_name "weather in straße" "Hyderabad" = "Hyderabad"
    ∧ extract_city_name (pyUpper "weather in straße") "Hyderabad" = "Strasse"
    ∧ extract_city_name (pyUpper "weather in straße") "Hyderabad" ≠
        extract_city_name "weather in straße" "Hyderabad" := by
  exact ⟨by decide, by decide, by decide, by decide⟩

/-- C10 (amended): for every query made of ASCII characters — where
Python's case maps are one-to-one — `extract_city_name` is insensitive
to letter case: uppercasing or lowercasing the whole query first changes
nothing, because the query is lowercased before either pattern is
applied.  (The unrestricted claim fails: `str.upper` maps `ß` to `SS`
and `ı` to `I`.) -/
theorem C10_case_insensitive :
    ∀ q d, q.data.all (fun c => c.toNat < 128) = true →
      extract_city_name (pyUpper q) d = extract_city_name q d
      ∧ extract_city_name (pyLower q) d = extract_city_name q d := by
  intro q d h
  constructor
  · unfold extract_city_name
    rw [pyLower_pyUpper_ascii q h]
  · unfold extract_city_name
    rw [pyLower_pyLower]

/-- C10 witness: the ASCII hypothesis discharged on a concrete query —
uppercasing or lowercasing "Nice weather in Paris" first leaves the
extraction unchanged. -/
theorem C10_case_insensitive_witness :
    extract_city_name (pyUpper "Nice weather in Paris") "X" =
      extract_city_name "Nice weather in Paris" "X"
    ∧ extract_city_name (pyLower "Nice weather in Paris") "X" =
      extract_city_name "Nice weather in Paris" "X" :=
  C10_case_insensitive "Nice weather in Paris" "X" (by decide)

end LGWA
